import Mathlib

/-!
Shallow embedding of the caffeine tracker in src/stim/stim.py.

Modelling conventions:
* Timestamps, amounts and time offsets are rationals; computed levels are
  reals, with the float `0.5 ** x` modelled as the real power
  `(1/2 : ℝ) ^ (x : ℝ)` and `round(x, n)` modelled as rounding of reals.
* The process clock `time.time()` is passed explicitly as a parameter
  `now`; a single call of the Python code may read the clock several
  times, all modelled by the same instant.
* The filesystem is the pair of the parsed dose-store file and the parsed
  cache file (`FS`).  A data file, when present, is modelled in the shape
  `save_data` writes (all fields present); the legacy normalisation in
  `load_data` for hand-edited JSON missing `undone_doses` / `next_id` /
  dose ids is outside the model, as is the derived `datetime` display
  string stored alongside each dose.  Python list `pop` is modelled by
  `getLast?` and `dropLast`.
* `raise ValueError` is modelled by returning `Except.error` together
  with the unchanged filesystem, and the warning print in
  `generate_timeseries` by a boolean field of the result.
-/

namespace Stim

/-- `HALF_LIFE_HOURS = 6` (stim.py line 11). -/
def HALF_LIFE_HOURS : ℚ := 6

/-- A dose record as created by `add_dose`: id, epoch timestamp, amount. -/
structure Dose where
  id : ℕ
  timestamp : ℚ
  amount : ℚ
  deriving DecidableEq, Repr

/-- The parsed content of the dose-store file `caffeine_data.json`. -/
structure Store where
  doses : List Dose
  undone_doses : List Dose
  next_id : ℕ
  deriving DecidableEq, Repr

/-- The parsed content of the cache file `caffeine_cache.json`
(the derived display string is not modelled). -/
structure CacheEntry where
  timestamp : ℚ
  level : ℝ

/-- The filesystem state the program touches: the dose-store file and the
cache file, each either absent or holding parsed content. -/
structure FS where
  dataFile : Option Store
  cacheFile : Option CacheEntry

/-- `load_data` (lines 21-42): a missing file yields the fresh store
`{doses: [], undone_doses: [], next_id: 1}`; otherwise the parsed file. -/
def load_data (fs : FS) : Store :=
  fs.dataFile.getD ⟨[], [], 1⟩

/-- `save_data` (lines 44-47): overwrite the dose-store file. -/
def save_data (d : Store) (fs : FS) : FS :=
  { fs with dataFile := some d }

/-- Python `round(x, 2)` on the aggregate level. -/
noncomputable def round2 (x : ℝ) : ℝ :=
  (round (x * 100) : ℤ) / 100

/-- Python `round(x, 1)` on elapsed hours (exact on rationals). -/
def round1q (x : ℚ) : ℚ :=
  (round (x * 10) : ℤ) / 10

/-- The per-dose remaining amount computed in the loop of
`calculate_current_level` (lines 59-60):
`hours_passed = (t - timestamp) / 3600`,
`remaining = amount * 0.5 ** (hours_passed / HALF_LIFE_HOURS)`. -/
noncomputable def remainingAfter (d : Dose) (t : ℚ) : ℝ :=
  (d.amount : ℝ) * (1 / 2 : ℝ) ^ ((((t - d.timestamp) / 3600) / HALF_LIFE_HOURS : ℚ) : ℝ)

/-- `sorted(doses, key=lambda x: x['timestamp'])` (line 54). -/
def sortByTimestamp (doses : List Dose) : List Dose :=
  doses.mergeSort (fun a b => a.timestamp ≤ b.timestamp)

/-- `calculate_current_level` (lines 49-62): sort by timestamp, keep the
doses with `timestamp <= t`, sum the remaining amounts, round to 2
decimal places. -/
noncomputable def calculate_current_level (doses : List Dose) (t : ℚ) : ℝ :=
  round2 ((((sortByTimestamp doses).filter (fun d => d.timestamp ≤ t)).map
    (fun d => remainingAfter d t)).sum)

/-- `cache_current_level` (lines 64-79): recompute the level from the
stored doses, write the cache file, return the cache entry. -/
noncomputable def cache_current_level (now : ℚ) (fs : FS) : CacheEntry × FS :=
  let data := load_data fs
  let current_level := calculate_current_level data.doses now
  let cache : CacheEntry := ⟨now, current_level⟩
  (cache, { fs with cacheFile := some cache })

/-- `get_cached_level` (lines 81-87): both the `try` branch and the
`except` branch call `cache_current_level`, so the read always
recomputes. -/
noncomputable def get_cached_level (now : ℚ) (fs : FS) : CacheEntry × FS :=
  cache_current_level now fs

/-- `add_dose` (lines 89-119).  The two `raise ValueError` paths leave
the filesystem untouched; otherwise the dose timestamp is
`now - abs(minutes_offset * 60)` clamped back to `now`, the dose gets
`id = next_id`, `next_id` is incremented, the dose is appended, the
store is saved, the cache file is unlinked if present, and the new
aggregate level is returned. -/
noncomputable def add_dose (amount : ℚ) (minutes_offset : ℚ) (now : ℚ) (fs : FS) :
    Except String ℝ × FS :=
  if amount ≤ 0 then
    (.error "Dose amount must be greater than 0", fs)
  else if amount > 1000 then
    (.error "Amount must be less than 1000! That is seriously a -lot- of caffeine!", fs)
  else
    let data := load_data fs
    let timestamp := now - |minutes_offset * 60|
    let timestamp := if timestamp > now then now else timestamp
    let dose : Dose := ⟨data.next_id, timestamp, amount⟩
    let data' : Store := ⟨data.doses ++ [dose], data.undone_doses, data.next_id + 1⟩
    let fs' := save_data data' fs
    let fs'' : FS := { fs' with cacheFile := none }
    (.ok (calculate_current_level data'.doses now), fs'')

/-- One annotated entry of the history listing (lines 132-140); the
derived display string is not modelled. -/
structure HistoryEntry where
  timestamp : ℚ
  amount : ℚ
  hours_ago : ℚ
  remaining : ℝ

/-- The annotation built for one dose in the loop of `show_history`:
`hours_ago = round((now - timestamp) / 3600, 1)`,
`remaining = amount * 0.5 ** (hours_ago / HALF_LIFE_HOURS)`, rounded. -/
noncomputable def historyEntry (now : ℚ) (d : Dose) : HistoryEntry :=
  let hours_ago := round1q ((now - d.timestamp) / 3600)
  let remaining := (d.amount : ℝ) * (1 / 2 : ℝ) ^ ((hours_ago / HALF_LIFE_HOURS : ℚ) : ℝ)
  ⟨d.timestamp, d.amount, hours_ago, round2 remaining⟩

/-- `show_history` (lines 121-142): empty store gives `[]`; otherwise
annotate `sorted(doses, key=timestamp)[-limit:]`.  Python slicing makes
`[-limit:]` the whole list when `limit = 0` (since `-0 == 0`), and the
last `limit` elements otherwise. -/
noncomputable def show_history (limit : ℕ) (now : ℚ) (fs : FS) : List HistoryEntry :=
  let data := load_data fs
  if data.doses = [] then []
  else
    let sorted := sortByTimestamp data.doses
    let lastN := if limit = 0 then sorted else sorted.drop (sorted.length - limit)
    lastN.map (historyEntry now)

/-- `undo_last` (lines 144-151): pop the last dose (if any) and save.
Note: it neither pushes onto `undone_doses` nor touches the cache file. -/
def undo_last (fs : FS) : Option Dose × FS :=
  let data := load_data fs
  match data.doses.getLast? with
  | none => (none, fs)
  | some removed =>
      (some removed, save_data ⟨data.doses.dropLast, data.undone_doses, data.next_id⟩ fs)

/-- `clean_old_doses` (lines 153-161): keep the doses younger than
`10 * HALF_LIFE_HOURS` hours and save.  The cache file is not touched. -/
def clean_old_doses (now : ℚ) (fs : FS) : FS :=
  let data := load_data fs
  save_data
    ⟨data.doses.filter (fun d => (now - d.timestamp) / 3600 < HALF_LIFE_HOURS * 10),
     data.undone_doses, data.next_id⟩ fs

/-- `handle_undo` (lines 500-523): pop the last dose onto
`undone_doses`, save, and unlink the cache file; no-op when there are no
doses. -/
def handle_undo (fs : FS) : FS :=
  let data := load_data fs
  match data.doses.getLast? with
  | none => fs
  | some removed =>
      let data' : Store := ⟨data.doses.dropLast, data.undone_doses ++ [removed], data.next_id⟩
      { save_data data' fs with cacheFile := none }

/-- `handle_redo` (lines 475-498): pop the last undone dose back onto
`doses`, save, and unlink the cache file; no-op when `undone_doses` is
empty. -/
def handle_redo (fs : FS) : FS :=
  let data := load_data fs
  match data.undone_doses.getLast? with
  | none => fs
  | some last_undone =>
      let data' : Store := ⟨data.doses ++ [last_undone], data.undone_doses.dropLast, data.next_id⟩
      { save_data data' fs with cacheFile := none }

/-- Python `int()` applied to a rational: truncation toward zero. -/
def pyInt (q : ℚ) : ℤ :=
  if q < 0 then ⌈q⌉ else ⌊q⌋

/-- `end_time = end_time or current_time` (line 169); `or` treats both
`None` and `0.0` as falsy. -/
def resolve_end (et : Option ℚ) (now : ℚ) : ℚ :=
  match et with
  | none => now
  | some e => if e = 0 then now else e

/-- The default start time (lines 172-176): the earliest dose timestamp,
or `end_time - 24h` when there are no doses. -/
def default_start (doses : List Dose) (end_time : ℚ) : ℚ :=
  match doses with
  | [] => end_time - 24 * 3600
  | d :: ds => (ds.map Dose.timestamp).foldl min d.timestamp

/-- `if not start_time:` (line 172); both `None` and `0.0` are falsy. -/
def resolve_start (st : Option ℚ) (dflt : ℚ) : ℚ :=
  match st with
  | none => dflt
  | some s => if s = 0 then dflt else s

/-- One sample of the generated series (lines 190-194); the derived
display string is not modelled. -/
structure TimePoint where
  timestamp : ℚ
  level : ℝ

/-- The result of `generate_timeseries`: the warning print for ranges of
more than 10000 points (lines 183-184) is modelled as a flag next to the
returned list. -/
structure Timeseries where
  warned : Bool
  series : List TimePoint

/-- `generate_timeseries` (lines 163-196): resolve the window defaults,
compute `num_points = int((end - start) / interval_seconds) + 1`, warn
above 10000 points, and sample `calculate_current_level` on the whole
dose list at each grid point. -/
noncomputable def generate_timeseries (start_time end_time : Option ℚ)
    (interval_minutes : ℚ) (now : ℚ) (fs : FS) : Timeseries :=
  let data := load_data fs
  let end_t := resolve_end end_time now
  let start_t := resolve_start start_time (default_start data.doses end_t)
  let interval_seconds := interval_minutes * 60
  let num_points : ℤ := pyInt ((end_t - start_t) / interval_seconds) + 1
  { warned := decide (10000 < num_points),
    series := (List.range num_points.toNat).map (fun i : ℕ =>
      let point_time := start_t + (i : ℚ) * interval_seconds
      ⟨point_time, calculate_current_level data.doses point_time⟩) }

/-- The level the spec ascribes to a dose list: the sum, over exactly
the doses with `timestamp ≤ t`, of
`amount * 0.5 ^ ((t - timestamp) / (6 * 3600))`, rounded to 2 decimal
places (no sorting step). -/
noncomputable def specCurrentLevel (doses : List Dose) (t : ℚ) : ℝ :=
  round2 (((doses.filter (fun d => d.timestamp ≤ t)).map (fun d =>
    (d.amount : ℝ) * (1 / 2 : ℝ) ^ (((t - d.timestamp) / (6 * 3600) : ℚ) : ℝ))).sum)

/-! ### Helper lemmas -/

/-- The sorting step of `calculate_current_level` does not change the
rounded sum: the level can be computed from the unsorted list. -/
theorem calc_level_eq_unsorted (doses : List Dose) (t : ℚ) :
    calculate_current_level doses t =
      round2 (((doses.filter (fun d => d.timestamp ≤ t)).map
        (fun d => remainingAfter d t)).sum) := by
  unfold calculate_current_level sortByTimestamp
  congr 1
  exact List.Perm.sum_eq (List.Perm.map _ (List.Perm.filter _ (List.mergeSort_perm _ _)))

/-- The level of the empty dose list is `0`. -/
theorem calc_level_nil (t : ℚ) : calculate_current_level [] t = 0 := by
  simp [calculate_current_level, sortByTimestamp, round2]

/-- The level is invariant under permutation of the dose list. -/
theorem calc_level_perm {doses doses' : List Dose} (t : ℚ) (h : doses.Perm doses') :
    calculate_current_level doses t = calculate_current_level doses' t := by
  rw [calc_level_eq_unsorted, calc_level_eq_unsorted]
  congr 1
  exact List.Perm.sum_eq (List.Perm.map _ (List.Perm.filter _ h))

/-- The per-dose decay term of the code equals the formula of the spec:
`(t - ts) / 3600 / 6 = (t - ts) / (6 * 3600)`. -/
theorem remainingAfter_eq_spec (d : Dose) (t : ℚ) :
    remainingAfter d t =
      (d.amount : ℝ) * (1 / 2 : ℝ) ^ (((t - d.timestamp) / (6 * 3600) : ℚ) : ℝ) := by
  have h : (t - d.timestamp) / 3600 / HALF_LIFE_HOURS = (t - d.timestamp) / (6 * 3600) := by
    rw [HALF_LIFE_HOURS, div_div]
    ring_nf
  rw [remainingAfter, h]

/-- A dose strictly in the future of the query time is dropped by the
filter and contributes nothing. -/
theorem calc_level_cons_future {d : Dose} {t : ℚ} (doses : List Dose)
    (h : t < d.timestamp) :
    calculate_current_level (d :: doses) t = calculate_current_level doses t := by
  rw [calc_level_eq_unsorted, calc_level_eq_unsorted, List.filter_cons_of_neg]
  simp [not_le.mpr h]

/-- On a valid amount `0 < a ≤ 1000`, `add_dose` builds the dose
`⟨next_id, now - |m * 60|, a⟩`, appends it, bumps `next_id`, writes the
store file, removes the cache file, and returns the new level. -/
theorem add_dose_ok (a m now : ℚ) (fs : FS) (h1 : 0 < a) (h2 : a ≤ 1000) :
    add_dose a m now fs =
      (.ok (calculate_current_level
          ((load_data fs).doses ++ [⟨(load_data fs).next_id, now - |m * 60|, a⟩]) now),
       ⟨some ⟨(load_data fs).doses ++ [⟨(load_data fs).next_id, now - |m * 60|, a⟩],
              (load_data fs).undone_doses, (load_data fs).next_id + 1⟩, none⟩) := by
  have hts : ¬ now - |m * 60| > now := not_lt.mpr (sub_le_self _ (abs_nonneg _))
  simp only [add_dose, if_neg (not_le.mpr h1), if_neg (not_lt.mpr h2), if_neg hts,
    save_data]

/-- `handle_undo` when the last dose exists: pop it onto `undone_doses`,
save, drop the cache file. -/
theorem handle_undo_eq {fs : FS} {d : Dose}
    (h : (load_data fs).doses.getLast? = some d) :
    handle_undo fs =
      ⟨some ⟨(load_data fs).doses.dropLast, (load_data fs).undone_doses ++ [d],
             (load_data fs).next_id⟩, none⟩ := by
  simp only [handle_undo, h, save_data]

/-- `handle_redo` when the last undone dose exists: pop it back onto
`doses`, save, drop the cache file. -/
theorem handle_redo_eq {fs : FS} {d : Dose}
    (h : (load_data fs).undone_doses.getLast? = some d) :
    handle_redo fs =
      ⟨some ⟨(load_data fs).doses ++ [d], (load_data fs).undone_doses.dropLast,
             (load_data fs).next_id⟩, none⟩ := by
  simp only [handle_redo, h, save_data]

/-- `undo_last` when the last dose exists: pop it, save, and leave the
cache file untouched. -/
theorem undo_last_eq {fs : FS} {d : Dose}
    (h : (load_data fs).doses.getLast? = some d) :
    undo_last fs =
      (some d, ⟨some ⟨(load_data fs).doses.dropLast, (load_data fs).undone_doses,
        (load_data fs).next_id⟩, fs.cacheFile⟩) := by
  simp only [undo_last, h, save_data]

/-- The timestamp sort produces a list that is pairwise ordered by
timestamp. -/
theorem sortByTimestamp_pairwise (l : List Dose) :
    (sortByTimestamp l).Pairwise (fun a b => a.timestamp ≤ b.timestamp) := by
  unfold sortByTimestamp
  refine List.Pairwise.imp (fun hab => ?_) (List.sorted_mergeSort ?_ ?_ l)
  · exact of_decide_eq_true hab
  · intro a b c hab hbc
    exact decide_eq_true (le_trans (of_decide_eq_true hab) (of_decide_eq_true hbc))
  · intro a b
    simpa using le_total a.timestamp b.timestamp

/-- The timestamp sort is a permutation of its input. -/
theorem sortByTimestamp_perm (l : List Dose) : (sortByTimestamp l).Perm l :=
  List.mergeSort_perm l _

/-- A left fold of `min` is bounded by its initial value. -/
theorem foldl_min_le_init (l : List ℚ) (a : ℚ) : l.foldl min a ≤ a := by
  induction l generalizing a with
  | nil => exact le_refl a
  | cons x t ih => exact le_trans (ih (min a x)) (min_le_left a x)

/-- A left fold of `min` is bounded by every list element. -/
theorem foldl_min_le_mem {x : ℚ} (l : List ℚ) (a : ℚ) (hx : x ∈ l) :
    l.foldl min a ≤ x := by
  induction l generalizing a with
  | nil => cases hx
  | cons y t ih =>
    rcases List.mem_cons.mp hx with h | h
    · subst h
      exact le_trans (foldl_min_le_init t (min a x)) (min_le_right a x)
    · exact ih (min a y) h

/-- A left fold of `min` returns the initial value or a list element. -/
theorem foldl_min_mem (l : List ℚ) (a : ℚ) : l.foldl min a ∈ a :: l := by
  induction l generalizing a with
  | nil => simp
  | cons x t ih =>
    simp only [List.foldl_cons]
    rcases List.mem_cons.mp (ih (min a x)) with h | h
    · rw [h]
      rcases min_choice a x with hm | hm <;> simp [hm]
    · exact List.mem_cons.mpr (Or.inr (List.mem_cons.mpr (Or.inr h)))

/-- On the empty dose list the default window start is `end - 24h`. -/
theorem default_start_nil (e : ℚ) : default_start [] e = e - 24 * 3600 := rfl

/-- The default window start is a lower bound of all dose timestamps. -/
theorem default_start_le (l : List Dose) (e : ℚ) :
    ∀ d ∈ l, default_start l e ≤ d.timestamp := by
  cases l with
  | nil => intro d hd; cases hd
  | cons d0 ds =>
    intro d hd
    rcases List.mem_cons.mp hd with h | h
    · subst h
      exact foldl_min_le_init (ds.map Dose.timestamp) d.timestamp
    · exact foldl_min_le_mem (ds.map Dose.timestamp) d0.timestamp
        (List.mem_map_of_mem Dose.timestamp h)

/-- On a non-empty dose list the default window start is one of the dose
timestamps. -/
theorem default_start_mem (l : List Dose) (e : ℚ) (h : l ≠ []) :
    default_start l e ∈ l.map Dose.timestamp := by
  cases l with
  | nil => exact absurd rfl h
  | cons d0 ds =>
    simpa using foldl_min_mem (ds.map Dose.timestamp) d0.timestamp

/-! ### Claims -/

/-- C1: for every list of doses and every query time `t`,
`currentLevel(doses, t)` equals the sum, over exactly those doses whose
timestamp is `≤ t`, of `amount * 0.5^((t - timestamp) / (6 * 3600))`,
rounded to 2 decimal places; doses with timestamp strictly greater than
`t` contribute zero, the result is invariant under permutation of the
input dose sequence, and for the empty dose list the result is `0`. -/
theorem claim_C1 (doses doses' : List Dose) (t : ℚ) (d : Dose) :
    calculate_current_level doses t = specCurrentLevel doses t
    ∧ (doses.Perm doses' →
        calculate_current_level doses t = calculate_current_level doses' t)
    ∧ (t < d.timestamp →
        calculate_current_level (d :: doses) t = calculate_current_level doses t)
    ∧ calculate_current_level [] t = 0 := by
  refine ⟨?_, fun h => calc_level_perm t h, fun h => calc_level_cons_future doses h,
    calc_level_nil t⟩
  rw [calc_level_eq_unsorted, specCurrentLevel]
  simp only [remainingAfter_eq_spec]

/-- Witness for C1 at concrete inputs: swapping two doses does not change
the level, and a future dose contributes nothing. -/
theorem claim_C1_witness :
    calculate_current_level [⟨1, 0, 100⟩, ⟨2, 3600, 50⟩] 7200
      = calculate_current_level [⟨2, 3600, 50⟩, ⟨1, 0, 100⟩] 7200
    ∧ calculate_current_level [⟨3, 10000, 40⟩, ⟨1, 0, 100⟩, ⟨2, 3600, 50⟩] 7200
      = calculate_current_level [⟨1, 0, 100⟩, ⟨2, 3600, 50⟩] 7200 :=
  ⟨(claim_C1 [⟨1, 0, 100⟩, ⟨2, 3600, 50⟩] [⟨2, 3600, 50⟩, ⟨1, 0, 100⟩] 7200
      ⟨1, 0, 100⟩).2.1 (List.Perm.swap _ _ _),
   (claim_C1 [⟨1, 0, 100⟩, ⟨2, 3600, 50⟩] [] 7200 ⟨3, 10000, 40⟩).2.2.1 (by norm_num)⟩

/-- C2: `add(amount, timeOffsetMinutes)` fails with `InvalidAmount` if and
only if `amount ≤ 0` or `amount > 1000`, and on that failure the store and
all persisted files are left unchanged; for every amount with
`0 < amount ≤ 1000` it does not raise this error. -/
theorem claim_C2 (a m now : ℚ) (fs : FS) :
    ((∃ e, (add_dose a m now fs).1 = .error e) ↔ a ≤ 0 ∨ 1000 < a)
    ∧ (a ≤ 0 ∨ 1000 < a → (add_dose a m now fs).2 = fs)
    ∧ (0 < a → a ≤ 1000 → ∃ lvl, (add_dose a m now fs).1 = .ok lvl) := by
  by_cases h1 : a ≤ 0
  · exact ⟨⟨fun _ => Or.inl h1,
        fun _ => ⟨"Dose amount must be greater than 0", by simp [add_dose, h1]⟩⟩,
      fun _ => by simp [add_dose, h1],
      fun h3 _ => absurd h1 (not_le.mpr h3)⟩
  · by_cases h2 : a > 1000
    · exact ⟨⟨fun _ => Or.inr h2,
          fun _ => ⟨"Amount must be less than 1000! That is seriously a -lot- of caffeine!",
            by simp [add_dose, h1, h2]⟩⟩,
        fun _ => by simp [add_dose, h1, h2],
        fun _ h4 => absurd h2 (not_lt.mpr h4)⟩
    · refine ⟨⟨?_, fun h => (h.elim h1 h2).elim⟩,
        fun h => (h.elim h1 h2).elim,
        fun _ _ => by simp only [add_dose, if_neg h1, if_neg h2]; exact ⟨_, rfl⟩⟩
      rintro ⟨e, he⟩
      simp [add_dose, h1, h2] at he

/-- Witness for C2 at concrete inputs: `add(-5)` fails and leaves the
filesystem unchanged, `add(100)` succeeds. -/
theorem claim_C2_witness :
    (add_dose (-5) 0 0 ⟨none, none⟩).2 = ⟨none, none⟩
    ∧ ∃ lvl, (add_dose 100 0 0 ⟨none, none⟩).1 = .ok lvl :=
  ⟨(claim_C2 (-5) 0 0 ⟨none, none⟩).2.1 (Or.inl (by norm_num)),
   (claim_C2 100 0 0 ⟨none, none⟩).2.2 (by norm_num) (by norm_num)⟩

/-- C3: for every amount in range and every offset (positive or
negative), `add` computes the new dose timestamp as
`now - abs(timeOffsetMinutes * 60)` (both signs shift into the past),
clamps any timestamp after `now` back to `now` (so the stored timestamp
is never after `now`), assigns `id = next_id`, increments `next_id` by
one, appends the dose at the end of the doses list, persists the store,
and returns the aggregate current level of the updated dose list. -/
theorem claim_C3 (a m now : ℚ) (fs : FS) (h1 : 0 < a) (h2 : a ≤ 1000) :
    add_dose a m now fs =
      (.ok (calculate_current_level
          ((load_data fs).doses ++ [⟨(load_data fs).next_id, now - |m * 60|, a⟩]) now),
       ⟨some ⟨(load_data fs).doses ++ [⟨(load_data fs).next_id, now - |m * 60|, a⟩],
              (load_data fs).undone_doses, (load_data fs).next_id + 1⟩, none⟩)
    ∧ now - |m * 60| ≤ now :=
  ⟨add_dose_ok a m now fs h1 h2, sub_le_self _ (abs_nonneg _)⟩

/-- Witness for C3 at `amount = 100`, `offset = 30` minutes, `now = 0`,
empty filesystem. -/
theorem claim_C3_witness :
    add_dose 100 30 0 ⟨none, none⟩ =
      (.ok (calculate_current_level
          ((load_data ⟨none, none⟩).doses ++
            [⟨(load_data ⟨none, none⟩).next_id, 0 - |(30 : ℚ) * 60|, 100⟩]) 0),
       ⟨some ⟨(load_data ⟨none, none⟩).doses ++
            [⟨(load_data ⟨none, none⟩).next_id, 0 - |(30 : ℚ) * 60|, 100⟩],
            (load_data ⟨none, none⟩).undone_doses, (load_data ⟨none, none⟩).next_id + 1⟩,
        none⟩)
    ∧ (0 : ℚ) - |(30 : ℚ) * 60| ≤ 0 :=
  claim_C3 100 30 0 ⟨none, none⟩ (by norm_num) (by norm_num)

/-- C4: for every store whose doses list is non-empty, `undo` followed
immediately by `redo` restores to the doses list the exact dose that
`undo` removed, with all its fields (id, timestamp, amount) intact,
appended at the end of the doses list — so the doses list is fully
restored. -/
theorem claim_C4 (fs : FS) (d : Dose)
    (h : (load_data fs).doses.getLast? = some d) :
    (load_data (handle_undo fs)).doses = (load_data fs).doses.dropLast
    ∧ (load_data (handle_redo (handle_undo fs))).doses
        = (load_data (handle_undo fs)).doses ++ [d]
    ∧ (load_data (handle_redo (handle_undo fs))).doses = (load_data fs).doses := by
  rw [handle_undo_eq h]
  have hu : (load_data (⟨some ⟨(load_data fs).doses.dropLast,
      (load_data fs).undone_doses ++ [d], (load_data fs).next_id⟩, none⟩ : FS))
      = ⟨(load_data fs).doses.dropLast, (load_data fs).undone_doses ++ [d],
         (load_data fs).next_id⟩ := rfl
  rw [hu, handle_redo_eq (by rw [hu]; exact List.getLast?_concat _)]
  refine ⟨rfl, rfl, ?_⟩
  exact List.dropLast_append_getLast? d (Option.mem_def.mpr h)

/-- Witness for C4 on a concrete two-dose store. -/
theorem claim_C4_witness :
    (load_data (handle_undo ⟨some ⟨[⟨1, 0, 100⟩, ⟨2, 3600, 50⟩], [], 3⟩, none⟩)).doses
      = (load_data ⟨some ⟨[⟨1, 0, 100⟩, ⟨2, 3600, 50⟩], [], 3⟩, none⟩).doses.dropLast
    ∧ (load_data (handle_redo (handle_undo
        ⟨some ⟨[⟨1, 0, 100⟩, ⟨2, 3600, 50⟩], [], 3⟩, none⟩))).doses
      = (load_data (handle_undo
          ⟨some ⟨[⟨1, 0, 100⟩, ⟨2, 3600, 50⟩], [], 3⟩, none⟩)).doses ++ [⟨2, 3600, 50⟩]
    ∧ (load_data (handle_redo (handle_undo
        ⟨some ⟨[⟨1, 0, 100⟩, ⟨2, 3600, 50⟩], [], 3⟩, none⟩))).doses
      = (load_data ⟨some ⟨[⟨1, 0, 100⟩, ⟨2, 3600, 50⟩], [], 3⟩, none⟩).doses :=
  claim_C4 ⟨some ⟨[⟨1, 0, 100⟩, ⟨2, 3600, 50⟩], [], 3⟩, none⟩ ⟨2, 3600, 50⟩ rfl

/-- C6: for every store and every valid amount, `add` followed
immediately by `undo` restores the doses list to its pre-add value,
while `next_id` keeps the incremented value (`undo` does not decrement
it). -/
theorem claim_C6 (a m now : ℚ) (fs : FS) (h1 : 0 < a) (h2 : a ≤ 1000) :
    (load_data (handle_undo (add_dose a m now fs).2)).doses = (load_data fs).doses
    ∧ (load_data (handle_undo (add_dose a m now fs).2)).next_id
        = (load_data fs).next_id + 1 := by
  rw [add_dose_ok a m now fs h1 h2]
  have h : (load_data (⟨some ⟨(load_data fs).doses ++
        [⟨(load_data fs).next_id, now - |m * 60|, a⟩],
        (load_data fs).undone_doses, (load_data fs).next_id + 1⟩, none⟩ : FS)).doses.getLast?
      = some ⟨(load_data fs).next_id, now - |m * 60|, a⟩ :=
    List.getLast?_concat _
  rw [handle_undo_eq h]
  exact ⟨by simp [load_data], rfl⟩

/-- Witness for C6 at `amount = 100`, `offset = 0`, `now = 3600`, on a
concrete one-dose store. -/
theorem claim_C6_witness :
    (load_data (handle_undo
        (add_dose 100 0 3600 ⟨some ⟨[⟨1, 0, 40⟩], [], 2⟩, none⟩).2)).doses
      = (load_data ⟨some ⟨[⟨1, 0, 40⟩], [], 2⟩, none⟩).doses
    ∧ (load_data (handle_undo
        (add_dose 100 0 3600 ⟨some ⟨[⟨1, 0, 40⟩], [], 2⟩, none⟩).2)).next_id
      = (load_data ⟨some ⟨[⟨1, 0, 40⟩], [], 2⟩, none⟩).next_id + 1 :=
  claim_C6 100 0 3600 ⟨some ⟨[⟨1, 0, 40⟩], [], 2⟩, none⟩ (by norm_num) (by norm_num)

/-- C5 counterexample: the claim says the prune operation
(`clean_old_doses`) deletes any cached current-level entry, but on a
concrete filesystem holding a cache entry the entry survives pruning. -/
theorem claim_C5_counterexample :
    (clean_old_doses 0 ⟨some ⟨[⟨1, 0, 100⟩], [], 2⟩, some ⟨0, 0⟩⟩).cacheFile ≠ none := by
  simp [clean_old_doses, save_data]

/-- C5 as amended: `add`, `undo` and `redo` persist the full store
synchronously and delete the cached current-level entry, while `prune`
(`clean_old_doses`) and the `undo_last` helper persist the store but
leave the cache file untouched. -/
theorem claim_C5_amended (a m now : ℚ) (fs : FS) :
    (0 < a → a ≤ 1000 → ∃ s, (add_dose a m now fs).2 = ⟨some s, none⟩)
    ∧ (∀ d, (load_data fs).doses.getLast? = some d →
        ∃ s, handle_undo fs = ⟨some s, none⟩)
    ∧ (∀ d, (load_data fs).undone_doses.getLast? = some d →
        ∃ s, handle_redo fs = ⟨some s, none⟩)
    ∧ (∃ s, (clean_old_doses now fs).dataFile = some s)
    ∧ (clean_old_doses now fs).cacheFile = fs.cacheFile
    ∧ (∀ d, (load_data fs).doses.getLast? = some d →
        ∃ s, (undo_last fs).2 = ⟨some s, fs.cacheFile⟩) :=
  ⟨fun h1 h2 => ⟨_, congrArg Prod.snd (add_dose_ok a m now fs h1 h2)⟩,
   fun _ hd => ⟨_, handle_undo_eq hd⟩,
   fun _ hd => ⟨_, handle_redo_eq hd⟩,
   ⟨_, rfl⟩, rfl,
   fun _ hd => ⟨_, congrArg Prod.snd (undo_last_eq hd)⟩⟩

/-- Witness for the amended C5 on concrete stores with a present cache
entry. -/
theorem claim_C5_witness :
    (∃ s, (add_dose 100 0 0 ⟨some ⟨[⟨1, 0, 40⟩], [], 2⟩, some ⟨0, 7⟩⟩).2
        = ⟨some s, none⟩)
    ∧ (∃ s, handle_undo ⟨some ⟨[⟨1, 0, 40⟩], [], 2⟩, some ⟨0, 7⟩⟩ = ⟨some s, none⟩)
    ∧ (∃ s, handle_redo ⟨some ⟨[], [⟨1, 0, 40⟩], 2⟩, some ⟨0, 7⟩⟩ = ⟨some s, none⟩)
    ∧ (∃ s, (undo_last ⟨some ⟨[⟨1, 0, 40⟩], [], 2⟩, some ⟨0, 7⟩⟩).2
        = ⟨some s, (⟨some ⟨[⟨1, 0, 40⟩], [], 2⟩, some ⟨0, 7⟩⟩ : FS).cacheFile⟩) :=
  ⟨(claim_C5_amended 100 0 0 ⟨some ⟨[⟨1, 0, 40⟩], [], 2⟩, some ⟨0, 7⟩⟩).1
      (by norm_num) (by norm_num),
   (claim_C5_amended 100 0 0 ⟨some ⟨[⟨1, 0, 40⟩], [], 2⟩, some ⟨0, 7⟩⟩).2.1
      ⟨1, 0, 40⟩ rfl,
   (claim_C5_amended 100 0 0 ⟨some ⟨[], [⟨1, 0, 40⟩], 2⟩, some ⟨0, 7⟩⟩).2.2.1
      ⟨1, 0, 40⟩ rfl,
   (claim_C5_amended 100 0 0 ⟨some ⟨[⟨1, 0, 40⟩], [], 2⟩, some ⟨0, 7⟩⟩).2.2.2.2.2
      ⟨1, 0, 40⟩ rfl⟩

/-- C9: the current-level read always recomputes the level from the
stored doses and rewrites the cache entry with the new value and
timestamp before returning; two runs over the same dose store and time
that differ only in the pre-existing cache entry return the same
level — the cache never serves a stale read. -/
theorem claim_C9 (now : ℚ) (fs1 fs2 : FS) (h : fs1.dataFile = fs2.dataFile) :
    (get_cached_level now fs1).1.level = (get_cached_level now fs2).1.level
    ∧ (get_cached_level now fs1).1.level
        = calculate_current_level (load_data fs1).doses now
    ∧ (get_cached_level now fs1).1.timestamp = now
    ∧ (get_cached_level now fs1).2.cacheFile = some (get_cached_level now fs1).1
    ∧ (get_cached_level now fs1).2.dataFile = fs1.dataFile := by
  have hl : load_data fs1 = load_data fs2 := by rw [load_data, load_data, h]
  refine ⟨?_, rfl, rfl, rfl, rfl⟩
  simp only [get_cached_level, cache_current_level, hl]

/-- Witness for C9: a run with a stale cache entry and a run with no
cache entry over the same (absent) dose store agree. -/
theorem claim_C9_witness :
    (get_cached_level 0 ⟨none, some ⟨5, 42⟩⟩).1.level
      = (get_cached_level 0 ⟨none, none⟩).1.level
    ∧ (get_cached_level 0 ⟨none, some ⟨5, 42⟩⟩).1.level
        = calculate_current_level (load_data ⟨none, some ⟨5, 42⟩⟩).doses 0
    ∧ (get_cached_level 0 ⟨none, some ⟨5, 42⟩⟩).1.timestamp = 0
    ∧ (get_cached_level 0 ⟨none, some ⟨5, 42⟩⟩).2.cacheFile
        = some (get_cached_level 0 ⟨none, some ⟨5, 42⟩⟩).1
    ∧ (get_cached_level 0 ⟨none, some ⟨5, 42⟩⟩).2.dataFile
        = (⟨none, some ⟨5, 42⟩⟩ : FS).dataFile :=
  claim_C9 0 ⟨none, some ⟨5, 42⟩⟩ ⟨none, none⟩ rfl

/-- C10: when no dose-store file exists, loading returns exactly the
fresh state `{doses: [], undone_doses: [], next_id: 1}`; consequently on
first run the reported current level is `0` and the first dose ever
added receives id `1`. -/
theorem claim_C10 (now a m : ℚ) (c : Option CacheEntry) :
    load_data ⟨none, c⟩ = ⟨[], [], 1⟩
    ∧ (get_cached_level now ⟨none, c⟩).1.level = 0
    ∧ (0 < a → a ≤ 1000 →
        (add_dose a m now ⟨none, c⟩).2.dataFile
          = some ⟨[⟨1, now - |m * 60|, a⟩], [], 2⟩) := by
  refine ⟨rfl, ?_, fun h1 h2 => ?_⟩
  · exact calc_level_nil now
  · rw [add_dose_ok a m now ⟨none, c⟩ h1 h2]
    rfl

/-- Witness for C10: first run with an absent store file. -/
theorem claim_C10_witness :
    load_data ⟨none, none⟩ = ⟨[], [], 1⟩
    ∧ (get_cached_level 0 ⟨none, none⟩).1.level = 0
    ∧ (add_dose 100 0 0 ⟨none, none⟩).2.dataFile
        = some ⟨[⟨1, 0 - |(0 : ℚ) * 60|, 100⟩], [], 2⟩ :=
  ⟨(claim_C10 0 100 0 none).1, (claim_C10 0 100 0 none).2.1,
   (claim_C10 0 100 0 none).2.2 (by norm_num) (by norm_num)⟩

/-- C8 counterexample: the claim quantifies over every limit, but for
`limit = 0` Python slicing (`doses[-0:]` is the whole list) makes
`history` return all doses instead of the zero most recent ones — here a
one-dose store yields a non-empty history at `limit = 0`. -/
theorem claim_C8_counterexample :
    show_history 0 0 ⟨some ⟨[⟨1, 0, 100⟩], [], 2⟩, none⟩ ≠ [] := by
  simp [show_history, load_data, sortByTimestamp]

/-- C8 as amended: for every store and every limit `≥ 1`, `history`
returns the `limit` most recent doses in timestamp order (the suffix of
the timestamp-sorted list, of length `min limit n`), each annotated with
its rounded elapsed hours and the remaining amount
`round(amount * 0.5^(elapsedHours / 6), 2)`; with no doses it returns
the empty list.  (At `limit = 0` the code returns all doses instead.) -/
theorem claim_C8_amended (limit : ℕ) (now : ℚ) (fs : FS) (h : 1 ≤ limit) :
    show_history limit now fs
      = ((sortByTimestamp (load_data fs).doses).drop
          ((sortByTimestamp (load_data fs).doses).length - limit)).map (historyEntry now)
    ∧ ((load_data fs).doses = [] → show_history limit now fs = [])
    ∧ (sortByTimestamp (load_data fs).doses).Pairwise
        (fun a b => a.timestamp ≤ b.timestamp)
    ∧ (sortByTimestamp (load_data fs).doses).Perm (load_data fs).doses
    ∧ ((sortByTimestamp (load_data fs).doses).drop
          ((sortByTimestamp (load_data fs).doses).length - limit)).length
        = min limit (load_data fs).doses.length
    ∧ (∀ d : Dose, historyEntry now d =
        ⟨d.timestamp, d.amount, round1q ((now - d.timestamp) / 3600),
         round2 ((d.amount : ℝ) * (1 / 2 : ℝ)
           ^ ((round1q ((now - d.timestamp) / 3600) / 6 : ℚ) : ℝ))⟩) := by
  have hlim : limit ≠ 0 := by omega
  refine ⟨?_, fun hd => by simp [show_history, hd],
    sortByTimestamp_pairwise _, sortByTimestamp_perm _, ?_, fun d => rfl⟩
  · by_cases hd : (load_data fs).doses = []
    · simp [show_history, hd, sortByTimestamp]
    · simp [show_history, hd, hlim]
  · have hn : (sortByTimestamp (load_data fs).doses).length
        = (load_data fs).doses.length := (sortByTimestamp_perm _).length_eq
    rw [List.length_drop, hn]
    omega

/-- Witness for the amended C8 on a concrete two-dose store at
`limit = 1`. -/
theorem claim_C8_witness :
    show_history 1 0 ⟨some ⟨[⟨1, 0, 100⟩, ⟨2, 3600, 50⟩], [], 3⟩, none⟩
      = ((sortByTimestamp
            (load_data ⟨some ⟨[⟨1, 0, 100⟩, ⟨2, 3600, 50⟩], [], 3⟩, none⟩).doses).drop
          ((sortByTimestamp
            (load_data ⟨some ⟨[⟨1, 0, 100⟩, ⟨2, 3600, 50⟩], [], 3⟩, none⟩).doses).length
            - 1)).map (historyEntry 0) :=
  (claim_C8_amended 1 0 ⟨some ⟨[⟨1, 0, 100⟩, ⟨2, 3600, 50⟩], [], 3⟩, none⟩
    (by norm_num)).1

/-- C7: `generate(startTime, endTime, intervalMinutes)` defaults
`endTime` to now and `startTime` to the earliest dose timestamp (or to
`endTime - 24h` when the dose list is empty), and returns evenly spaced
sample points at `intervalMinutes` resolution from `startTime` to
`endTime` inclusive — exactly the grid points `start + i * interval`
that do not exceed `endTime` — each point's level computed by
`currentLevel` against the entire dose list; when the point count
exceeds 10000 it warns but does not fail, still returning the full
series. -/
theorem claim_C7 (st et : Option ℚ) (q now s e : ℚ) (fs : FS)
    (hq : 0 < q) (he : e = resolve_end et now)
    (hs : s = resolve_start st (default_start (load_data fs).doses e))
    (hse : s ≤ e) :
    (generate_timeseries st et q now fs).series
      = (List.range (pyInt ((e - s) / (q * 60)) + 1).toNat).map (fun i : ℕ =>
          ⟨s + (i : ℚ) * (q * 60),
           calculate_current_level (load_data fs).doses (s + (i : ℚ) * (q * 60))⟩)
    ∧ (∀ i : ℕ, i < (pyInt ((e - s) / (q * 60)) + 1).toNat ↔ s + (i : ℚ) * (q * 60) ≤ e)
    ∧ (generate_timeseries st et q now fs).series.length
        = (pyInt ((e - s) / (q * 60)) + 1).toNat
    ∧ ((generate_timeseries st et q now fs).warned = true
        ↔ 10000 < pyInt ((e - s) / (q * 60)) + 1)
    ∧ resolve_end none now = now
    ∧ ((load_data fs).doses = [] → default_start (load_data fs).doses e = e - 24 * 3600)
    ∧ (∀ d ∈ (load_data fs).doses, default_start (load_data fs).doses e ≤ d.timestamp)
    ∧ ((load_data fs).doses ≠ [] →
        default_start (load_data fs).doses e ∈ (load_data fs).doses.map Dose.timestamp) := by
  have key : generate_timeseries st et q now fs =
      { warned := decide (10000 < pyInt ((e - s) / (q * 60)) + 1),
        series := (List.range (pyInt ((e - s) / (q * 60)) + 1).toNat).map (fun i : ℕ =>
          ⟨s + (i : ℚ) * (q * 60),
           calculate_current_level (load_data fs).doses (s + (i : ℚ) * (q * 60))⟩) } := by
    subst hs
    subst he
    rfl
  have hq60 : (0 : ℚ) < q * 60 := by positivity
  have hnn : (0 : ℚ) ≤ (e - s) / (q * 60) :=
    div_nonneg (by linarith) (le_of_lt hq60)
  have hpy : pyInt ((e - s) / (q * 60)) = ⌊(e - s) / (q * 60)⌋ := by
    rw [pyInt, if_neg (not_lt.mpr hnn)]
  have hfl : (0 : ℤ) ≤ ⌊(e - s) / (q * 60)⌋ := Int.floor_nonneg.mpr hnn
  refine ⟨by rw [key], ?_, by rw [key]; simp, by rw [key]; simp,
    rfl, fun hd => by rw [hd]; rfl, default_start_le _ _, default_start_mem _ _⟩
  intro i
  rw [hpy]
  rw [Int.lt_toNat, Int.lt_add_one_iff, Int.le_floor]
  rw [le_div_iff₀ hq60]
  push_cast
  constructor <;> intro <;> linarith

/-- Witness for C7: default window over a one-dose store, 15-minute
intervals, one hour of range. -/
theorem claim_C7_witness :
    (generate_timeseries none none 15 7200 ⟨some ⟨[⟨1, 3600, 100⟩], [], 2⟩, none⟩).series
      = (List.range (pyInt (((7200 : ℚ) - 3600) / (15 * 60)) + 1).toNat).map (fun i : ℕ =>
          ⟨3600 + (i : ℚ) * (15 * 60),
           calculate_current_level
             (load_data ⟨some ⟨[⟨1, 3600, 100⟩], [], 2⟩, none⟩).doses
             (3600 + (i : ℚ) * (15 * 60))⟩) :=
  (claim_C7 none none 15 7200 3600 7200 ⟨some ⟨[⟨1, 3600, 100⟩], [], 2⟩, none⟩
    (by norm_num) rfl rfl (by norm_num)).1

end Stim
